import Mathlib

/-!
Verification of the mod-catalog bot and web routes.

This file gives a shallow embedding of the persistent record store
(`Mod`, `Category`), the per-conversation session buffer (`UserData`),
the Telegram conversation handlers of `src/bot.py` (owner add-mod flow,
user suggest-mod flow, category creation, review queue), and the Flask
routes of `src/routes/main_routes.py`, together with theorems settling
the frozen claims about them.

Conventions:
- Database rows are lists of records; `id` columns are assigned from an
  autoincrement counter carried in `DB`.
- Timestamps (`created_at`, `updated_at`) are natural numbers; the
  ambient `datetime.utcnow` default is modelled by a `clock` field of
  `DB`.
- Outbound chat messages are abstracted to outcome constructors and to
  short English tag strings standing for the source's Arabic texts;
  what matters for the claims is which message is produced, and to whom
  notifications are sent.
- String helpers (split, lower-case, parse) are implemented over
  `List Char` so that every definition evaluates by kernel reduction.
-/

/-- Lower-case an ASCII letter, as `str.lower` / SQL `ILIKE` do on the
names appearing here. -/
def lowerChar (c : Char) : Char :=
  if 65 ≤ c.toNat ∧ c.toNat ≤ 90 then Char.ofNat (c.toNat + 32) else c

/-- Lower-case a string character-wise. -/
def lowerStr (s : String) : String := ⟨s.data.map lowerChar⟩

/-- Split a character list on a separator character, Python
`str.split(sep)` style: `""` splits to `[""]`, separators at the ends
produce empty fields. -/
def splitOnCharAux (sep : Char) (l : List Char) (acc : List Char) :
    List (List Char) :=
  match l with
  | [] => [acc.reverse]
  | x :: xs =>
    if x == sep then acc.reverse :: splitOnCharAux sep xs []
    else splitOnCharAux sep xs (x :: acc)

/-- Python `s.split("_")`, as used on callback action data. -/
def strSplitUnderscore (s : String) : List String :=
  (splitOnCharAux '_' s.data []).map String.mk

/-- Numeric value of an ASCII digit. -/
def digitVal? (c : Char) : Option Nat :=
  if 48 ≤ c.toNat ∧ c.toNat ≤ 57 then some (c.toNat - 48) else none

def parseNatAux : List Char → Nat → Option Nat
  | [], acc => some acc
  | c :: cs, acc =>
    match digitVal? c with
    | some d => parseNatAux cs (acc * 10 + d)
    | none => none

/-- Python `int(s)` restricted to plain decimal digit strings (the only
shape the bot's button callback data carries); `int("")` raises, hence
`none` on the empty string. -/
def strToNat? (s : String) : Option Nat :=
  match s.data with
  | [] => none
  | l => parseNatAux l 0

/-- Whether `pre` is a prefix of `s`, for modelling the conversation
handler's anchored regex patterns. -/
def strStartsWith (s pre : String) : Bool :=
  pre.data.isPrefixOf s.data

/-- Membership test for a substring, case-insensitively: SQL
`ILIKE '%q%'` as used by the search route. -/
def charListIsInfix (needle : List Char) : List Char → Bool
  | [] => needle.isEmpty
  | x :: xs => needle.isPrefixOf (x :: xs) || charListIsInfix needle xs

def containsSubstrCI (hay needle : String) : Bool :=
  charListIsInfix (lowerStr needle).data (lowerStr hay).data

/-- SQL `ILIKE` applied to a wildcard-free pattern is case-insensitive
equality. `confirm_add_category_callback` passes the raw user-supplied
category name as the pattern; this model covers names without LIKE
wildcard characters, which is the shape the case-collision claim is
about (a case variant of an existing name always matches under full
ILIKE as well). -/
def ilikePlain (pattern s : String) : Bool :=
  lowerStr pattern == lowerStr s

/-- Lexicographic string order (for `order_by(name)`; only membership of
the sorted output matters to the claims). -/
def charListLe : List Char → List Char → Bool
  | [], _ => true
  | _ :: _, [] => false
  | a :: as, b :: bs =>
    if a.toNat < b.toNat then true
    else if b.toNat < a.toNat then false
    else charListLe as bs

def strLe (a b : String) : Bool := charListLe a.data b.data

/-! ## Data model (src/models/mod.py, src/models/admin.py)

The embedding lives in the `ModBot` namespace so that the source's
class name `Mod` can be kept (the root name `Mod` is taken by a core
typeclass). -/

namespace ModBot

/-- A row of the `mods` table (class `Mod` in `src/models/mod.py`).
`status` is one of `"pending_approval"`, `"approved"`, `"rejected"`. -/
structure Mod where
  id : Nat := 0
  name : String := ""
  description : String := ""
  download_link : String := ""
  image_filename : Option String := none
  category_id : Option Nat := none
  uploader_telegram_id : Nat := 0
  status : String := "pending_approval"
  created_at : Nat := 0
  updated_at : Nat := 0
  view_count : Nat := 0
  download_count : Nat := 0
deriving Repr, DecidableEq

/-- A row of the `categories` table.
Modelled from the spec: the file `src/models/category.py` is not in the
sources; section 3 of the spec gives the Category record as identity
plus display name, matching its use in `bot.py`
(`Category(name=...)`, `.id`, `.name`). -/
structure Category where
  id : Nat := 0
  name : String := ""
deriving Repr, DecidableEq

/-- The shared record store: the tables together with autoincrement
counters and the ambient clock supplying `datetime.utcnow` defaults. -/
structure DB where
  mods : List Mod := []
  categories : List Category := []
  nextModId : Nat := 1
  nextCatId : Nat := 1
  clock : Nat := 0
deriving Repr, DecidableEq

def OWNER_TELEGRAM_ID : Nat := 7839645457

/-- `Mod.query.get(mod_id)`. -/
def modGet (db : DB) (mod_id : Nat) : Option Mod :=
  db.mods.find? (fun m => m.id == mod_id)

/-- `mod_to_update.status = s; db.session.commit()`. -/
def modSetStatus (db : DB) (mod_id : Nat) (s : String) : DB :=
  { db with
    mods := db.mods.map fun m =>
      if m.id == mod_id then { m with status := s } else m }

/-- `db.session.add(Mod(...)); db.session.commit()`: the new row gets
the next autoincrement id and default timestamps/counters. -/
def insertMod (db : DB) (name description download_link : String)
    (image_filename : Option String) (uploader : Nat) (status : String) : DB :=
  { db with
    mods := db.mods ++
      [{ id := db.nextModId, name := name, description := description,
         download_link := download_link, image_filename := image_filename,
         category_id := none, uploader_telegram_id := uploader,
         status := status, created_at := db.clock, updated_at := db.clock,
         view_count := 0, download_count := 0 }],
    nextModId := db.nextModId + 1 }

/-- `db.session.add(Category(name=...)); db.session.commit()`. -/
def insertCategory (db : DB) (name : String) : DB :=
  { db with
    categories := db.categories ++ [{ id := db.nextCatId, name := name }],
    nextCatId := db.nextCatId + 1 }

/-- Insertion step of a stable insertion sort with a boolean key. -/
def insertBy (le : Mod → Mod → Bool) (m : Mod) : List Mod → List Mod
  | [] => [m]
  | x :: xs => if le m x then m :: x :: xs else x :: insertBy le m xs

/-- Stable insertion sort, modelling the store's `order_by`. -/
def sortBy (le : Mod → Mod → Bool) : List Mod → List Mod
  | [] => []
  | x :: xs => insertBy le x (sortBy le xs)

/-- `Mod.query.filter_by(status="pending_approval").order_by(Mod.created_at.asc()).all()`. -/
def pendingModsOrdered (db : DB) : List Mod :=
  sortBy (fun a b => decide (a.created_at ≤ b.created_at))
    (db.mods.filter (fun m => m.status == "pending_approval"))

/-! ## Session buffers (`context.user_data`) -/

/-- The per-flow mod buffer: the dict stored under `"current_mod"` /
`"suggested_mod"`, filled one field per conversation step. -/
structure ModDraft where
  name : Option String := none
  description : Option String := none
  download_link : Option String := none
  image_filename : Option String := none
deriving Repr, DecidableEq

/-- The dict stored under `"new_category"`. -/
structure CatDraft where
  name : Option String := none
deriving Repr, DecidableEq

/-- One user's `context.user_data` dict: the keys the four flows use.
`none` models an absent key. -/
structure UserData where
  current_mod : Option ModDraft := none
  suggested_mod : Option ModDraft := none
  new_category : Option CatDraft := none
  pending_mods_list : Option (List Nat) := none
  current_review_index : Option Nat := none
deriving Repr, DecidableEq

/-! ## Generic mod input steps (`_get_mod_name` .. `_get_mod_image`)

Each step stores one field into the flow's buffer and advances to the
next conversation state; the linear state sequence is modelled by the
flow drivers below, which apply the steps in the source's fixed order.
The conversation handler guarantees the buffer dict exists (it is
created at flow entry), so the steps are given the draft directly. -/

def getModNameStep (d : ModDraft) (text : String) : ModDraft :=
  { d with name := some text }

def getModDescriptionStep (d : ModDraft) (text : String) : ModDraft :=
  { d with description := some text }

def getModLinkStep (d : ModDraft) (text : String) : ModDraft :=
  { d with download_link := some text }

/-- The inbound photo of the image step: Telegram message id, the
file's unique id, and the server-side file path (used only for its
extension). -/
structure PhotoInput where
  message_id : Nat := 0
  file_unique_id : String := ""
  file_path : Option String := none
deriving Repr, DecidableEq

/-- `os.path.splitext(p)[1]`: the extension (with dot) of the basename,
empty when the basename has no dot or only a leading dot. -/
def splitextExt (p : String) : String :=
  let base := (p.splitOn "/").getLastD ""
  let parts := base.splitOn "."
  match parts with
  | [] => ""
  | [_] => ""
  | first :: _ =>
    if first.isEmpty ∧ parts.length == 2 then ""
    else "." ++ parts.getLastD ""

/-- The stored image filename
`f"mod_{message_id}_{file_unique_id}{file_extension}"`, where the
extension falls back to `".jpg"` when the photo has no file path. -/
def imageFilenameFor (p : PhotoInput) : String :=
  let ext := match p.file_path with
    | some fp => if fp.isEmpty then ".jpg" else splitextExt fp
    | none => ".jpg"
  "mod_" ++ toString p.message_id ++ "_" ++ p.file_unique_id ++ ext

/-- `_get_mod_image`: persist the photo under the derived filename
(file storage is external to this model) and record the filename in the
buffer. -/
def getModImageStep (d : ModDraft) (p : PhotoInput) : ModDraft :=
  { d with image_filename := some (imageFilenameFor p) }

/-! ## Owner add-mod flow -/

inductive AddModStart
  | denied      -- permission-denied message, conversation ends
  | promptName  -- buffer initialised, asks for the mod name
deriving Repr, DecidableEq

/-- `add_mod_start_callback`: owner gate, then initialise
`user_data["current_mod"] = {}` and ask for the name. -/
def add_mod_start_callback (db : DB) (ud : UserData) (userId : Nat) :
    DB × UserData × AddModStart :=
  if userId != OWNER_TELEGRAM_ID then (db, ud, .denied)
  else (db, { ud with current_mod := some {} }, .promptName)

inductive AddModOutcome
  | added (name : String)  -- success message, then back to main menu
  | saveError              -- KeyError inside the try: generic failure message
  | cancelled              -- cancel button: nothing persisted
  | raisedKeyError         -- user_data["current_mod"] missing: uncaught
deriving Repr, DecidableEq

structure AddModResult where
  db : DB
  ud : UserData
  outcome : AddModOutcome
deriving Repr, DecidableEq

/-- `confirm_add_mod_callback`: on the yes button build a `Mod` with
`uploader_telegram_id=OWNER_TELEGRAM_ID, status="approved"` and commit
it; on cancel persist nothing. Either way pop the buffer and return to
the main menu. -/
def confirm_add_mod_callback (db : DB) (ud : UserData) (data : String) :
    AddModResult :=
  if data == "confirm_add_mod_yes" then
    match ud.current_mod with
    | none => ⟨db, ud, .raisedKeyError⟩
    | some d =>
      match d.name, d.description, d.download_link, d.image_filename with
      | some n, some ds, some l, some img =>
        ⟨insertMod db n ds l (some img) OWNER_TELEGRAM_ID "approved",
         { ud with current_mod := none }, .added n⟩
      | _, _, _, _ => ⟨db, { ud with current_mod := none }, .saveError⟩
  else ⟨db, { ud with current_mod := none }, .cancelled⟩

/-- The owner add-mod flow after its entry gate: the four collection
steps in their fixed order (name, description, link, image) followed by
the confirmation callback. -/
def addModFlow (db : DB) (ud : UserData) (nameIn descIn linkIn : String)
    (p : PhotoInput) (confirmData : String) : AddModResult :=
  let d0 : ModDraft := {}
  let d1 := getModNameStep d0 nameIn
  let d2 := getModDescriptionStep d1 descIn
  let d3 := getModLinkStep d2 linkIn
  let d4 := getModImageStep d3 p
  confirm_add_mod_callback db { ud with current_mod := some d4 } confirmData

/-! ## User suggest-mod flow -/

inductive SuggestOutcome
  | committedNotified (name : String)
    -- success reply stands; owner notification delivered
  | committedNotifyFailed (name : String)
    -- mod committed and success reply shown, but the owner notification
    -- raised inside the same try block, so the reply is overwritten
    -- with the generic save-error message
  | saveError
  | cancelled
  | raisedKeyError
deriving Repr, DecidableEq

/-- The final text of the triggering user's message once the handler
returns (the last `edit_message_text` wins). Tags stand for the
source's Arabic texts. -/
def suggestReply : SuggestOutcome → String
  | .committedNotified n => "suggestion_received:" ++ n
  | .committedNotifyFailed _ => "error_saving_suggestion"
  | .saveError => "error_saving_suggestion"
  | .cancelled => "suggestion_cancelled"
  | .raisedKeyError => "unhandled_error"

/-- The notification text sent to the owner describing the new pending
item (name, description, link, image of the suggestion, and who sent
it). -/
def ownerSuggestNotice (userId : Nat) (n ds l img : String) : String :=
  "new_suggestion_from:" ++ toString userId ++ ":" ++ n ++ ":" ++ ds ++
    ":" ++ l ++ ":" ++ img

structure SuggestResult where
  db : DB
  ud : UserData
  outcome : SuggestOutcome
  /-- successfully delivered `bot.send_message` calls: (chat id, text) -/
  notifications : List (Nat × String)
  /-- exceptions logged by the handler -/
  errorLogs : Nat
deriving Repr, DecidableEq

/-- `confirm_suggest_mod_callback`: on yes, commit a `Mod` with
`uploader_telegram_id=user.id, status="pending_approval"`, edit in the
success reply, then send the owner notification. The send happens
inside the same try block as the commit: when the owner is unreachable
the raised exception is caught by the generic handler, which logs it
and overwrites the reply with the save-error message (the commit
stands). The buffer is popped on every path after the initial read. -/
def confirm_suggest_mod_callback (db : DB) (ud : UserData) (userId : Nat)
    (data : String) (ownerReachable : Bool) : SuggestResult :=
  if data == "confirm_suggest_mod_yes" then
    match ud.suggested_mod with
    | none => ⟨db, ud, .raisedKeyError, [], 0⟩
    | some d =>
      match d.name, d.description, d.download_link, d.image_filename with
      | some n, some ds, some l, some img =>
        let db' := insertMod db n ds l (some img) userId "pending_approval"
        if ownerReachable then
          ⟨db', { ud with suggested_mod := none }, .committedNotified n,
           [(OWNER_TELEGRAM_ID, ownerSuggestNotice userId n ds l img)], 0⟩
        else
          ⟨db', { ud with suggested_mod := none }, .committedNotifyFailed n,
           [], 1⟩
      | _, _, _, _ => ⟨db, { ud with suggested_mod := none }, .saveError, [], 1⟩
  else ⟨db, { ud with suggested_mod := none }, .cancelled, [], 0⟩

/-- The user suggestion flow: entry (`suggest_new_mod_start_callback`
initialises the buffer; it has no owner gate), the four collection
steps, then the confirmation callback. -/
def suggestFlow (db : DB) (ud : UserData) (userId : Nat)
    (nameIn descIn linkIn : String) (p : PhotoInput) (confirmData : String)
    (ownerReachable : Bool) : SuggestResult :=
  let d0 : ModDraft := {}
  let d1 := getModNameStep d0 nameIn
  let d2 := getModDescriptionStep d1 descIn
  let d3 := getModLinkStep d2 linkIn
  let d4 := getModImageStep d3 p
  confirm_suggest_mod_callback db { ud with suggested_mod := some d4 }
    userId confirmData ownerReachable

/-! ## Review queue (owner) -/

inductive DisplayResult
  | showMod (idx : Nat) (modId : Nat)
    -- renders the item with approve/reject/skip buttons,
    -- stays in state REVIEW_MOD_ACTION
  | noMoreItems
    -- "no more suggested mods" message, main menu, conversation ends
  | notFoundMenu
    -- not-found message, main menu, conversation ends
deriving Repr, DecidableEq

/-- `display_pending_mod_for_review`: read the cursor, end the pass
with the no-more-items message when the index is out of bounds of the
snapshot, re-fetch the snapshot id at the cursor, end with not-found
plus main menu when the row was deleted, otherwise render it. -/
def display_pending_mod_for_review (db : DB) (ud : UserData) : DisplayResult :=
  let idx := ud.current_review_index.getD 0
  let pending_ids := ud.pending_mods_list.getD []
  if idx ≥ pending_ids.length then .noMoreItems
  else
    let mod_id := pending_ids.getD idx 0
    match modGet db mod_id with
    | none => .notFoundMenu
    | some _ => .showMod idx mod_id

inductive ReviewStartOutcome
  | denied
  | nothingToReview  -- message plus main menu, conversation ends
  | showFirst (d : DisplayResult)
deriving Repr, DecidableEq

/-- `review_suggested_mods_start_callback`: owner gate; query all
pending mods ordered by creation time ascending; with none, report and
return to the menu; otherwise snapshot their ids, set the cursor to 0
and display the first. -/
def review_suggested_mods_start_callback (db : DB) (ud : UserData)
    (userId : Nat) : DB × UserData × ReviewStartOutcome :=
  if userId != OWNER_TELEGRAM_ID then (db, ud, .denied)
  else
    let pending := pendingModsOrdered db
    if pending.isEmpty then (db, ud, .nothingToReview)
    else
      let ud' := { ud with
        pending_mods_list := some (pending.map (fun m => m.id)),
        current_review_index := some 0 }
      (db, ud', .showFirst (display_pending_mod_for_review db ud'))

/-- `action_data.split("_")[-2:]` unpacked into two names plus
`int(mod_id_str)`; `none` is the ValueError path (fewer than two parts,
or a non-numeric id). -/
def parseActionData (s : String) : Option (String × Nat) :=
  let parts := strSplitUnderscore s
  match parts.drop (parts.length - 2) with
  | [a, b] => (strToNat? b).map fun n => (a, n)
  | _ => none

inductive ReviewOutcome
  | displayed (d : DisplayResult)
    -- cursor advanced, display step re-entered
  | mainMenu        -- main_menu_from_review branch: menu, conversation ends
  | notFoundOnAction
    -- "mod not found" message; conversation ends WITHOUT the main menu
  | unknownAction   -- "unknown action" message, conversation ends
  | badActionData   -- ValueError: "bad action data" message, ends
deriving Repr, DecidableEq

structure ActionResult where
  db : DB
  ud : UserData
  outcome : ReviewOutcome
  /-- successfully delivered suggester notifications: (chat id, text) -/
  notifications : List (Nat × String)
  /-- swallowed notification failures logged with `logger.warning` -/
  warnings : Nat
deriving Repr, DecidableEq

def approveNoticeMsg (name : String) : String := "suggestion_approved:" ++ name

def rejectNoticeMsg (name : String) : String := "suggestion_rejected:" ++ name

/-- advance `user_data["current_review_index"]` by one -/
def bumpIndex (ud : UserData) : UserData :=
  { ud with current_review_index := some (ud.current_review_index.getD 0 + 1) }

/-- `review_action_callback`: skip advances the cursor and re-displays;
the main-menu branch ends the pass; otherwise the action data is parsed
for an action type and mod id, the row is re-fetched (ending, without a
menu, when it no longer exists), its status set to approved/rejected
and committed, the suggester notified unless they are the owner (a
failed send is logged and swallowed by the inner try/except), and the
cursor advanced. `notifyOk` says whether the suggester is reachable. -/
def review_action_callback (db : DB) (ud : UserData) (action_data : String)
    (notifyOk : Bool) : ActionResult :=
  if action_data == "review_action_skip" then
    let ud' := bumpIndex ud
    ⟨db, ud', .displayed (display_pending_mod_for_review db ud'), [], 0⟩
  else if action_data == "main_menu_from_review" then
    ⟨db, ud, .mainMenu, [], 0⟩
  else
    match parseActionData action_data with
    | none => ⟨db, ud, .badActionData, [], 0⟩
    | some (action_type, mod_id) =>
      match modGet db mod_id with
      | none => ⟨db, ud, .notFoundOnAction, [], 0⟩
      | some m =>
        if action_type == "approve" then
          let db' := modSetStatus db mod_id "approved"
          let wantNotify := m.uploader_telegram_id != OWNER_TELEGRAM_ID
          let ud' := bumpIndex ud
          ⟨db', ud', .displayed (display_pending_mod_for_review db' ud'),
           if wantNotify && notifyOk then
             [(m.uploader_telegram_id, approveNoticeMsg m.name)] else [],
           if wantNotify && !notifyOk then 1 else 0⟩
        else if action_type == "reject" then
          let db' := modSetStatus db mod_id "rejected"
          let wantNotify := m.uploader_telegram_id != OWNER_TELEGRAM_ID
          let ud' := bumpIndex ud
          ⟨db', ud', .displayed (display_pending_mod_for_review db' ud'),
           if wantNotify && notifyOk then
             [(m.uploader_telegram_id, rejectNoticeMsg m.name)] else [],
           if wantNotify && !notifyOk then 1 else 0⟩
        else ⟨db, ud, .unknownAction, [], 0⟩

/-- Whether the handler path renders the owner's main menu
(`go_to_main_menu_owner`). -/
def displayRendersMenu : DisplayResult → Bool
  | .showMod _ _ => false
  | .noMoreItems => true
  | .notFoundMenu => true

def outcomeRendersMenu : ReviewOutcome → Bool
  | .displayed d => displayRendersMenu d
  | .mainMenu => true
  | .notFoundOnAction => false
  | .unknownAction => false
  | .badActionData => false

/-- The registered handler pattern
`^review_action_(approve|reject|skip)_.*$` of
`review_mods_conv_handler`: the group must be followed by an
underscore, so the data matches exactly when it starts with one of the
three `review_action_<type>_` prefixes. -/
def reviewActionPatternMatches (s : String) : Bool :=
  strStartsWith s "review_action_approve_" ||
  strStartsWith s "review_action_reject_" ||
  strStartsWith s "review_action_skip_"

inductive ReviewDispatch
  | handled (r : ActionResult)
  | menuFallback
    -- the "^main_menu_from_review$" fallback: renders the menu
  | ignored
    -- no handler of the conversation (nor any other registered
    -- handler) matches: the button press is dropped and the
    -- conversation state, the cursor and the store are all unchanged
deriving Repr, DecidableEq

/-- One button press while the conversation sits in state
REVIEW_MOD_ACTION, dispatched as `review_mods_conv_handler` registers
it: the state handler only fires on data matching its pattern, the
fallback on exactly `main_menu_from_review`, and anything else is
ignored. -/
def review_state_dispatch (db : DB) (ud : UserData) (data : String)
    (notifyOk : Bool) : ReviewDispatch :=
  if reviewActionPatternMatches data then
    .handled (review_action_callback db ud data notifyOk)
  else if data == "main_menu_from_review" then .menuFallback
  else .ignored

/-! ## Category management (owner) -/

inductive CatMenuStart
  | denied
  | menuShown
deriving Repr, DecidableEq

/-- `manage_categories_menu_callback`: owner gate, then render the
category-management menu; no store access. -/
def manage_categories_menu_callback (db : DB) (ud : UserData)
    (userId : Nat) : DB × UserData × CatMenuStart :=
  if userId != OWNER_TELEGRAM_ID then (db, ud, .denied)
  else (db, ud, .menuShown)

inductive CatOutcome
  | alreadyExists (name : String)  -- collision message, nothing persisted
  | added (name : String)
  | cancelled
  | raisedKeyError
deriving Repr, DecidableEq

structure CatResult where
  db : DB
  ud : UserData
  outcome : CatOutcome
deriving Repr, DecidableEq

/-- `confirm_add_category_callback`: on yes, look for an existing
category whose name matches the entered one case-insensitively
(`Category.name.ilike(cat_name)`); report the collision without
persisting, or insert and report success. The buffer is popped and the
category menu re-shown on every non-raising path. -/
def confirm_add_category_callback (db : DB) (ud : UserData) (data : String) :
    CatResult :=
  if data == "confirm_add_category_yes" then
    match ud.new_category with
    | some ⟨some cat_name⟩ =>
      match db.categories.find? (fun c => ilikePlain cat_name c.name) with
      | some _ => ⟨db, { ud with new_category := none }, .alreadyExists cat_name⟩
      | none => ⟨insertCategory db cat_name,
                 { ud with new_category := none }, .added cat_name⟩
    | _ => ⟨db, ud, .raisedKeyError⟩
  else ⟨db, { ud with new_category := none }, .cancelled⟩

/-- The category-creation flow after the management menu: entry
(`add_category_start_callback` initialises the buffer),
`get_new_category_name` stores the name, then confirmation. -/
def addCategoryFlow (db : DB) (ud : UserData) (nameIn : String)
    (confirmData : String) : CatResult :=
  confirm_add_category_callback db
    { ud with new_category := some ⟨some nameIn⟩ } confirmData

/-! ## Web routes (src/routes/main_routes.py) -/

/-- `index`: the ten latest approved mods (approved filter, newest
first, limit 10). -/
def index_route (db : DB) : List Mod :=
  (sortBy (fun a b => decide (b.created_at ≤ a.created_at))
    (db.mods.filter (fun m => m.status == "approved"))).take 10

/-- `mod_detail`: `filter_by(id=mod_id, status="approved").first_or_404()`;
`none` is the 404. -/
def mod_detail_route (db : DB) (mod_id : Nat) : Option Mod :=
  db.mods.find? (fun m => m.id == mod_id && m.status == "approved")

/-- `category_mods`: 404 on a missing category, else the approved mods
of that category ordered by name. -/
def category_mods_route (db : DB) (category_id : Nat) :
    Option (Category × List Mod) :=
  (db.categories.find? (fun c => c.id == category_id)).map fun c =>
    (c, sortBy (fun a b => strLe a.name b.name)
      (db.mods.filter (fun m =>
        m.category_id == some c.id && m.status == "approved")))

/-- `search`: empty query gives no results, else approved mods whose
name contains the query case-insensitively, ordered by name. -/
def search_route (db : DB) (q : String) : List Mod :=
  if q.data.isEmpty then []
  else sortBy (fun a b => strLe a.name b.name)
    (db.mods.filter (fun m =>
      containsSubstrCI m.name q && m.status == "approved"))

/-! ## Concrete fixtures used in evaluation theorems -/

/-- pending suggestion created at time 1 -/
def mA : Mod :=
  { id := 1, name := "m1", description := "d1", download_link := "l1",
    image_filename := some "i1.jpg", uploader_telegram_id := 100,
    status := "pending_approval", created_at := 1, updated_at := 1 }

/-- pending suggestion created at time 2 -/
def mB : Mod :=
  { id := 2, name := "m2", description := "d2", download_link := "l2",
    image_filename := some "i2.jpg", uploader_telegram_id := 200,
    status := "pending_approval", created_at := 2, updated_at := 2 }

/-- pending suggestion created at time 3 -/
def mC : Mod :=
  { id := 3, name := "m3", description := "d3", download_link := "l3",
    image_filename := some "i3.jpg", uploader_telegram_id := 300,
    status := "pending_approval", created_at := 3, updated_at := 3 }

/-- a store holding exactly the three pending suggestions -/
def db3 : DB := { mods := [mA, mB, mC], nextModId := 4 }

/-- the owner's session right after starting a review pass over `db3` -/
def ud3 : UserData :=
  { pending_mods_list := some [1, 2, 3], current_review_index := some 0 }

/-- owner session whose review snapshot points at a mod id (9) that no
longer exists in `db3` -/
def udMissing : UserData :=
  { pending_mods_list := some [9], current_review_index := some 0 }

/-! ## Helper lemmas -/

theorem mem_insertBy {le : Mod → Mod → Bool} {m a : Mod} {l : List Mod} :
    a ∈ insertBy le m l ↔ a = m ∨ a ∈ l := by
  induction l with
  | nil => simp [insertBy]
  | cons x xs ih =>
    simp only [insertBy]
    split
    · simp [List.mem_cons]
    · simp only [List.mem_cons, ih]
      tauto

theorem mem_sortBy {le : Mod → Mod → Bool} {a : Mod} {l : List Mod} :
    a ∈ sortBy le l ↔ a ∈ l := by
  induction l with
  | nil => simp [sortBy]
  | cons x xs ih => simp [sortBy, mem_insertBy, ih]

/-! ## Claim theorems -/

/-- C3: for every sequence of valid inputs (name, description, link,
image) through the owner-add-mod flow ending in confirm, exactly one
new submission record exists afterward (the store grows by exactly the
one appended row), with status `approved`, submitter the owner
identity, and name, description, download link and stored image
reference equal to the inputs supplied at each step (the image
reference being the filename derived from the supplied photo). -/
theorem addMod_confirm_commits_single_approved_record
    (db : DB) (ud : UserData) (n ds l : String) (p : PhotoInput) :
    (addModFlow db ud n ds l p "confirm_add_mod_yes").db.mods =
      db.mods ++
        [{ id := db.nextModId, name := n, description := ds,
           download_link := l, image_filename := some (imageFilenameFor p),
           category_id := none, uploader_telegram_id := OWNER_TELEGRAM_ID,
           status := "approved", created_at := db.clock,
           updated_at := db.clock, view_count := 0, download_count := 0 }] ∧
    (addModFlow db ud n ds l p "confirm_add_mod_yes").outcome = .added n :=
  ⟨rfl, rfl⟩

/-- C4: the same owner-add-mod flow ending in cancel persists nothing
(the store is unchanged) and leaves the flow's session buffer empty. -/
theorem addMod_cancel_discards_buffer_and_store
    (db : DB) (ud : UserData) (n ds l : String) (p : PhotoInput) :
    (addModFlow db ud n ds l p "confirm_add_mod_cancel").db = db ∧
    (addModFlow db ud n ds l p "confirm_add_mod_cancel").ud.current_mod = none ∧
    (addModFlow db ud n ds l p "confirm_add_mod_cancel").outcome = .cancelled :=
  ⟨rfl, rfl, rfl⟩

/-- C2: every completed user-suggestion flow ending in confirm commits
exactly one submission with status `pending_approval` and submitter the
invoking (non-owner) user's id, and dispatches exactly one notification,
to the owner identity, describing the new pending item. -/
theorem suggest_confirm_pending_single_owner_notification
    (db : DB) (ud : UserData) (userId : Nat) (n ds l : String)
    (p : PhotoInput) (_howner : userId ≠ OWNER_TELEGRAM_ID) :
    (suggestFlow db ud userId n ds l p "confirm_suggest_mod_yes" true).db.mods =
      db.mods ++
        [{ id := db.nextModId, name := n, description := ds,
           download_link := l, image_filename := some (imageFilenameFor p),
           category_id := none, uploader_telegram_id := userId,
           status := "pending_approval", created_at := db.clock,
           updated_at := db.clock, view_count := 0, download_count := 0 }] ∧
    (suggestFlow db ud userId n ds l p "confirm_suggest_mod_yes" true).notifications =
      [(OWNER_TELEGRAM_ID,
        ownerSuggestNotice userId n ds l (imageFilenameFor p))] ∧
    (suggestFlow db ud userId n ds l p "confirm_suggest_mod_yes" true).notifications.length = 1 :=
  ⟨rfl, rfl, rfl⟩

/-- C2 witness: the theorem applied at a concrete non-owner user. -/
theorem suggest_confirm_pending_single_owner_notification_witness :
    (42 : Nat) ≠ OWNER_TELEGRAM_ID ∧
    (suggestFlow {} {} 42 "n" "d" "l" ⟨7, "u", none⟩
      "confirm_suggest_mod_yes" true).notifications.length = 1 :=
  ⟨by decide,
   (suggest_confirm_pending_single_owner_notification {} {} 42 "n" "d" "l"
     ⟨7, "u", none⟩ (by decide)).2.2⟩

/-- C6: every invocation of an owner-only entry point (add-mod-start,
manage-categories, review-start) by a non-owner identity terminates
immediately with the denial outcome, leaves the record store untouched
and leaves any prior conversation state unchanged. -/
theorem owner_only_entries_denied_no_mutation
    (db : DB) (ud : UserData) (uid : Nat) (h : uid ≠ OWNER_TELEGRAM_ID) :
    add_mod_start_callback db ud uid = (db, ud, .denied) ∧
    manage_categories_menu_callback db ud uid = (db, ud, .denied) ∧
    review_suggested_mods_start_callback db ud uid = (db, ud, .denied) := by
  have hb : (uid != OWNER_TELEGRAM_ID) = true := by simpa using h
  refine ⟨?_, ?_, ?_⟩ <;>
    simp [add_mod_start_callback, manage_categories_menu_callback,
      review_suggested_mods_start_callback, hb]

/-- C6 witness: the theorem applied at a concrete non-owner identity. -/
theorem owner_only_entries_denied_no_mutation_witness :
    (0 : Nat) ≠ OWNER_TELEGRAM_ID ∧
    add_mod_start_callback {} {} 0 = ({}, {}, AddModStart.denied) :=
  ⟨by decide, (owner_only_entries_denied_no_mutation {} {} 0 (by decide)).1⟩

/-- C9: within a review pass, `review_action_callback` never mutates
the snapshot of pending ids captured at pass start (so submissions
arriving mid-pass are not inserted into it), and the cursor index never
decreases: it is either unchanged (pass-terminating outcomes) or
advanced by exactly 1, and every action that re-enters the display step
(skip, or a successful approve/reject) advances it by exactly 1. -/
theorem review_cursor_monotone_snapshot_immutable
    (db : DB) (ud : UserData) (data : String) (notifyOk : Bool) :
    (review_action_callback db ud data notifyOk).ud.pending_mods_list =
      ud.pending_mods_list ∧
    ((review_action_callback db ud data notifyOk).ud.current_review_index.getD 0 =
        ud.current_review_index.getD 0 ∨
      (review_action_callback db ud data notifyOk).ud.current_review_index.getD 0 =
        ud.current_review_index.getD 0 + 1) ∧
    (∀ d, (review_action_callback db ud data notifyOk).outcome = .displayed d →
      (review_action_callback db ud data notifyOk).ud.current_review_index.getD 0 =
        ud.current_review_index.getD 0 + 1) := by
  unfold review_action_callback
  split
  · simp [bumpIndex]
  · split
    · simp
    · cases hp : parseActionData data with
      | none => simp [hp]
      | some pr =>
        obtain ⟨ty, i⟩ := pr
        simp only [hp]
        cases hm : modGet db i with
        | none => simp [hm]
        | some m =>
          simp only [hm]
          split
          · simp [bumpIndex]
          · split
            · simp [bumpIndex]
            · simp

/-- C9 witness: the skip action at a concrete state advances the
cursor by exactly 1 and leaves the snapshot unchanged. -/
theorem review_cursor_monotone_snapshot_immutable_witness :
    (review_action_callback db3 ud3 "review_action_skip" true).ud.pending_mods_list =
      ud3.pending_mods_list ∧
    (review_action_callback db3 ud3 "review_action_skip" true).ud.current_review_index.getD 0 =
      ud3.current_review_index.getD 0 + 1 :=
  ⟨(review_cursor_monotone_snapshot_immutable db3 ud3 "review_action_skip" true).1,
   (review_cursor_monotone_snapshot_immutable db3 ud3 "review_action_skip" true).2.2
     (.showMod 1 2) (by decide)⟩

/-- C5: category creation is idempotent under case-insensitive name
collision: when the store holds exactly one category whose name equals
`N` up to letter case and the flow confirms a second creation with any
name `n2` equal to `N` up to case, the attempt reports the collision,
persists nothing, and exactly one such category record exists
afterwards. -/
theorem category_creation_case_collision_idempotent
    (db : DB) (ud : UserData) (N n2 : String)
    (hone : db.categories.countP (fun c => lowerStr c.name == lowerStr N) = 1)
    (hcase : lowerStr n2 = lowerStr N) :
    (addCategoryFlow db ud n2 "confirm_add_category_yes").db = db ∧
    (addCategoryFlow db ud n2 "confirm_add_category_yes").outcome =
      .alreadyExists n2 ∧
    (addCategoryFlow db ud n2 "confirm_add_category_yes").db.categories.countP
      (fun c => lowerStr c.name == lowerStr N) = 1 := by
  have hex : ∃ c, c ∈ db.categories ∧ ilikePlain n2 c.name = true := by
    have hpos : 0 < db.categories.countP (fun c => lowerStr c.name == lowerStr N) := by
      omega
    obtain ⟨c, hc, hpc⟩ := List.countP_pos_iff.mp hpos
    refine ⟨c, hc, ?_⟩
    have hcn : lowerStr c.name = lowerStr N := by
      have hpc' : (lowerStr c.name == lowerStr N) = true := hpc
      exact eq_of_beq hpc'
    simp [ilikePlain, hcase, hcn]
  obtain ⟨cv, hcv⟩ : ∃ cv,
      db.categories.find? (fun c => ilikePlain n2 c.name) = some cv := by
    have hs : (db.categories.find? (fun c => ilikePlain n2 c.name)).isSome := by
      rw [List.find?_isSome]
      exact hex
    exact Option.isSome_iff_exists.mp hs
  refine ⟨?_, ?_, ?_⟩ <;>
    simp [addCategoryFlow, confirm_add_category_callback, hcv, hone]

/-- C5 witness: creating "Adventure" then attempting "ADVENTURE". -/
theorem category_creation_case_collision_idempotent_witness :
    (({ categories := [⟨1, "Adventure"⟩] } : DB).categories.countP
      (fun c => lowerStr c.name == lowerStr "Adventure") = 1) ∧
    (addCategoryFlow { categories := [⟨1, "Adventure"⟩] } {} "ADVENTURE"
      "confirm_add_category_yes").outcome = .alreadyExists "ADVENTURE" :=
  ⟨by decide,
   (category_creation_case_collision_idempotent
     { categories := [⟨1, "Adventure"⟩] } {} "Adventure" "ADVENTURE"
     (by decide) (by decide)).2.1⟩

/-- C10: the web surface serves only approved mods: the home listing,
per-category listings and search results contain only mods with status
`approved`, and the single-mod detail route answers 404 (`none`) for
any id no approved mod carries — in particular for every pending or
rejected submission's id. -/
theorem web_routes_serve_only_approved
    (db : DB) (i : Nat)
    (hnone : ∀ m ∈ db.mods, m.id = i → m.status ≠ "approved") :
    (∀ m ∈ index_route db, m.status = "approved") ∧
    (∀ j m, mod_detail_route db j = some m → m.status = "approved") ∧
    (∀ cid c ms, category_mods_route db cid = some (c, ms) →
      ∀ m ∈ ms, m.status = "approved") ∧
    (∀ q, ∀ m ∈ search_route db q, m.status = "approved") ∧
    mod_detail_route db i = none := by
  refine ⟨?_, ?_, ?_, ?_, ?_⟩
  · intro m hm
    have hm' := (List.take_sublist 10 _).subset hm
    have hm'' := mem_sortBy.mp hm'
    have := (List.mem_filter.mp hm'').2
    simpa using this
  · intro j m hm
    have := List.find?_some hm
    simp only [Bool.and_eq_true, beq_iff_eq] at this
    exact this.2
  · intro cid c ms hm m hmem
    unfold category_mods_route at hm
    cases hf : db.categories.find? (fun c => c.id == cid) with
    | none => rw [hf] at hm; simp at hm
    | some c' =>
      rw [hf] at hm
      simp only [Option.map_some', Option.some.injEq, Prod.mk.injEq] at hm
      obtain ⟨-, hms⟩ := hm
      rw [← hms] at hmem
      have hm'' := mem_sortBy.mp hmem
      have := (List.mem_filter.mp hm'').2
      simp only [Bool.and_eq_true, beq_iff_eq] at this
      exact this.2
  · intro q m hm
    unfold search_route at hm
    split at hm
    · simp at hm
    · have hm'' := mem_sortBy.mp hm
      have := (List.mem_filter.mp hm'').2
      simp only [Bool.and_eq_true, beq_iff_eq] at this
      exact this.2
  · rw [mod_detail_route, List.find?_eq_none]
    intro m hm hcontra
    simp only [Bool.and_eq_true, beq_iff_eq] at hcontra
    exact hnone m hm hcontra.1 hcontra.2

/-- C10 witness: against a store of three pending submissions, the
detail route 404s on id 1. -/
theorem web_routes_serve_only_approved_witness :
    (∀ m ∈ db3.mods, m.id = 1 → m.status ≠ "approved") ∧
    mod_detail_route db3 1 = none :=
  ⟨by decide, (web_routes_serve_only_approved db3 1 (by decide)).2.2.2.2⟩

/-- C8 counterexample: with the cursor on a submission that was deleted
since the snapshot, pressing approve makes `review_action_callback`
report not-found and end the pass, but — contrary to the claim — it
does not return to the main menu (`go_to_main_menu_owner` is not
called on that path; the source returns `ConversationHandler.END`
directly). -/
theorem review_missing_on_action_no_menu_counterexample :
    (review_action_callback db3 udMissing "review_action_approve_9" true).outcome =
      .notFoundOnAction ∧
    outcomeRendersMenu
      (review_action_callback db3 udMissing "review_action_approve_9" true).outcome =
      false := by decide

/-- C8 (amended): when the submission at the cursor no longer exists,
the display step reports not-found, abandons the pass and returns to
the main menu; when the approve/reject target no longer exists at
action time, the handler reports not-found and abandons the pass but
ends without rendering the main menu. -/
theorem review_missing_mod_paths
    (db : DB) (ud : UserData) (data ty : String) (i : Nat) (notifyOk : Bool)
    (h1 : ud.current_review_index.getD 0 < (ud.pending_mods_list.getD []).length)
    (h2 : modGet db
      ((ud.pending_mods_list.getD []).getD (ud.current_review_index.getD 0) 0) = none)
    (h3 : parseActionData data = some (ty, i))
    (h4 : modGet db i = none)
    (h5 : data ≠ "review_action_skip")
    (h6 : data ≠ "main_menu_from_review") :
    (display_pending_mod_for_review db ud = .notFoundMenu ∧
      displayRendersMenu .notFoundMenu = true) ∧
    ((review_action_callback db ud data notifyOk).outcome = .notFoundOnAction ∧
      outcomeRendersMenu .notFoundOnAction = false) := by
  refine ⟨⟨?_, rfl⟩, ⟨?_, rfl⟩⟩
  · unfold display_pending_mod_for_review
    rw [if_neg (by omega)]
    simp only [h2]
  · unfold review_action_callback
    rw [if_neg (by simpa using h5), if_neg (by simpa using h6)]
    simp only [h3, h4]

/-- C8 witness: the amended theorem applied at a concrete deleted
submission. -/
theorem review_missing_mod_paths_witness :
    display_pending_mod_for_review db3 udMissing = .notFoundMenu ∧
    (review_action_callback db3 udMissing "review_action_reject_9" true).outcome =
      .notFoundOnAction :=
  ⟨(review_missing_mod_paths db3 udMissing "review_action_reject_9" "reject" 9 true
      (by decide) (by decide) (by decide) (by decide) (by decide) (by decide)).1.1,
   (review_missing_mod_paths db3 udMissing "review_action_reject_9" "reject" 9 true
      (by decide) (by decide) (by decide) (by decide) (by decide) (by decide)).2.1⟩

/-- C1: evaluation at the failing input. A review pass over three
pending submissions created at times 1 < 2 < 3 snapshots them in
ascending creation order and shows the first; approving the first
commits `approved` and shows the second; but the skip button's callback
data `"review_action_skip"` does not match the handler pattern
`^review_action_(approve|reject|skip)_.*$` registered for state
REVIEW_MOD_ACTION (the pattern requires an underscore after `skip`), so
the skip press is dropped by dispatch: the cursor, the snapshot and all
statuses stay as they were and the pass cannot proceed past the second
item as the claim describes — even though the (unreachable) skip branch
inside `review_action_callback` would advance the cursor by one. -/
theorem review_pass_skip_button_ignored_eval :
    review_suggested_mods_start_callback db3 {} OWNER_TELEGRAM_ID =
      (db3, ud3, .showFirst (.showMod 0 1)) ∧
    (review_action_callback db3 ud3 "review_action_approve_1" true).db.mods.map
      (fun m => m.status) =
      ["approved", "pending_approval", "pending_approval"] ∧
    (review_action_callback db3 ud3 "review_action_approve_1" true).outcome =
      .displayed (.showMod 1 2) ∧
    (review_action_callback db3 ud3 "review_action_approve_1" true).ud =
      { ud3 with current_review_index := some 1 } ∧
    reviewActionPatternMatches "review_action_skip" = false ∧
    review_state_dispatch
      (review_action_callback db3 ud3 "review_action_approve_1" true).db
      (review_action_callback db3 ud3 "review_action_approve_1" true).ud
      "review_action_skip" true = .ignored ∧
    (review_action_callback
      (review_action_callback db3 ud3 "review_action_approve_1" true).db
      (review_action_callback db3 ud3 "review_action_approve_1" true).ud
      "review_action_skip" true).ud.current_review_index = some 2 := by decide

/-- C7: evaluation at the failing input. In the review flow a failed
suggester notification is logged and swallowed: store, outcome and
cursor are identical whether or not the suggester is reachable, with
one warning logged. In the suggestion flow, however, the owner
notification is sent inside the same try block as the commit, so when
the owner is unreachable the commit still stands (one new row) but the
triggering user's reply is overwritten with the save-error message
instead of the success message — the delivery failure does surface in
the primary flow's visible outcome, contrary to the claim. -/
theorem notification_failure_outcomes_eval :
    (review_action_callback db3 ud3 "review_action_approve_1" false).db =
      (review_action_callback db3 ud3 "review_action_approve_1" true).db ∧
    (review_action_callback db3 ud3 "review_action_approve_1" false).outcome =
      (review_action_callback db3 ud3 "review_action_approve_1" true).outcome ∧
    (review_action_callback db3 ud3 "review_action_approve_1" false).ud =
      (review_action_callback db3 ud3 "review_action_approve_1" true).ud ∧
    (review_action_callback db3 ud3 "review_action_approve_1" false).warnings = 1 ∧
    (review_action_callback db3 ud3 "review_action_approve_1" false).notifications =
      [] ∧
    (suggestFlow {} {} 42 "n" "d" "l" ⟨7, "u", none⟩
      "confirm_suggest_mod_yes" false).db.mods.length = 1 ∧
    suggestReply (suggestFlow {} {} 42 "n" "d" "l" ⟨7, "u", none⟩
      "confirm_suggest_mod_yes" false).outcome = "error_saving_suggestion" ∧
    suggestReply (suggestFlow {} {} 42 "n" "d" "l" ⟨7, "u", none⟩
      "confirm_suggest_mod_yes" true).outcome = "suggestion_received:n" ∧
    (suggestFlow {} {} 42 "n" "d" "l" ⟨7, "u", none⟩
      "confirm_suggest_mod_yes" false).errorLogs = 1 := by decide

end ModBot

